import Mathlib

/-! Verification of the LeakSanitizer standalone runtime bootstrap
(`system/lib/compiler-rt/lib/lsan/lsan.cpp`).

The file shallowly embeds the initialization entry point `__lsan_init`,
the flag-resolution routine `InitializeFlags`, and the stack-unwind
dispatcher `BufferedStackTrace::UnwindImpl`.  External collaborators
(allocator, interceptors, thread registry, the sanitizer-common flag
parser) are modelled either as abstract inputs or, where the behaviour
is needed, from the specification's description, each such definition
carrying a `Modelled from the spec:` doc comment.
-/

namespace Lsan

/-! Option-string parsing (Configuration Resolver).

The actual flag-parsing machinery lives in `sanitizer_common`, outside
the sources at hand; `InitializeFlags` only drives it.  The parsing
semantics are therefore modelled from the specification. -/

/-- Split a character list on a delimiter character (the analogue of
splitting a string on a separator). -/
def splitOnChar (c : Char) : List Char → List (List Char)
  | [] => [[]]
  | x :: xs =>
      if x = c then [] :: splitOnChar c xs
      else
        match splitOnChar c xs with
        | t :: ts => (x :: t) :: ts
        | [] => [[x]]

/-- Turn one `key=value` token into an assignment; tokens that are not of
that shape, or have an empty key, are dropped. -/
def parseToken (tok : List Char) : Option (String × String) :=
  match splitOnChar '=' tok with
  | [k, v] => if k = [] then none else some (String.mk k, String.mk v)
  | _ => none

/-- Modelled from the spec: the `sanitizer_common` flag-parsing machinery
behind `parser.ParseString` is not among the sources; the spec describes
it as parsing a tool-specific options string "as `key=value` pairs
separated by a host-conventional delimiter" (`:` in the spec's example
`"a=1:b=0"`), with malformed tokens ignored rather than fatal.  Returns
the assignments in textual order. -/
def parseString (s : String) : List (String × String) :=
  (splitOnChar ':' s.data).filterMap parseToken

/-- Apply one `key=value` assignment to a flag valuation. -/
def setOption (m : String → String) (kv : String × String) : String → String :=
  fun k => if k = kv.fst then kv.snd else m k

/-- Apply a list of assignments in order (later assignments win). -/
def applyOpts (m : String → String) (l : List (String × String)) : String → String :=
  l.foldl setOption m

/-- Does a parsed source mention the key `k`? -/
def mentions (l : List (String × String)) (k : String) : Bool :=
  l.any fun kv => kv.fst = k

/-- The value the latest assignment of a source gives to `k`
(falling back to `dflt` when the source omits `k`). -/
def lastVal (l : List (String × String)) (k : String) (dflt : String) : String :=
  l.foldl (fun acc kv => if k = kv.fst then kv.snd else acc) dflt

/-- The merge performed by `InitializeFlags` lines 85-98, on an untyped
flag valuation: defaults, then the embedded default-options string, then
the platform-sourced `LSAN_OPTIONS` string, each parsed and applied in
that order. -/
def resolveConfig (defaults : String → String) (s1 s2 : String) : String → String :=
  applyOpts (applyOpts defaults (parseString s1)) (parseString s2)

/-! Typed common flags and `InitializeFlags`.

The `CommonFlags` record keeps the fields `InitializeFlags` and
`__lsan_init` read.  Defaults are left abstract (they come from
`SetCommonFlagsDefaults` in `sanitizer_common`): `InitializeFlags`
receives them as an argument. -/

structure CommonFlags where
  malloc_context_size : Nat
  intercept_tls_get_addr : Bool
  detect_leaks : Bool
  exitcode : Nat
  leak_check_at_exit : Bool
  verbosity : Nat
  deriving DecidableEq, Repr

/-- Parse a boolean flag value. -/
def parseBoolVal (v : String) : Option Bool :=
  if v = "1" || v = "true" || v = "yes" then some true
  else if v = "0" || v = "false" || v = "no" then some false
  else none

/-- Accumulate decimal digits into a number. -/
def digitsToNat (acc : Nat) : List Char → Option Nat
  | [] => some acc
  | c :: cs =>
      if c.isDigit then digitsToNat (acc * 10 + (c.toNat - '0'.toNat)) cs
      else none

/-- Parse a decimal integer flag value. -/
def parseNatVal (v : String) : Option Nat :=
  match v.data with
  | [] => none
  | l => digitsToNat 0 l

/-- Modelled from the spec: the flag registration done by
`RegisterCommonFlags(&parser)` is not among the sources; per the spec the
recognized keys "include at least: allocation-context depth, ..., leak
detection toggle, check-at-exit toggle, process exit code on leak,
TLS-interception toggle, verbosity level".  Applies one recognized
`key=value` assignment to the typed flags; unrecognized keys and
malformed values leave the flags unchanged (never fatal). -/
def setCommonFlag (f : CommonFlags) (kv : String × String) : CommonFlags :=
  if kv.fst = "malloc_context_size" then
    match parseNatVal kv.snd with
    | some n => { f with malloc_context_size := n }
    | none => f
  else if kv.fst = "intercept_tls_get_addr" then
    match parseBoolVal kv.snd with
    | some b => { f with intercept_tls_get_addr := b }
    | none => f
  else if kv.fst = "detect_leaks" then
    match parseBoolVal kv.snd with
    | some b => { f with detect_leaks := b }
    | none => f
  else if kv.fst = "exitcode" then
    match parseNatVal kv.snd with
    | some n => { f with exitcode := n }
    | none => f
  else if kv.fst = "leak_check_at_exit" then
    match parseBoolVal kv.snd with
    | some b => { f with leak_check_at_exit := b }
    | none => f
  else if kv.fst = "verbosity" then
    match parseNatVal kv.snd with
    | some n => { f with verbosity := n }
    | none => f
  else f

/-- The tool-mandated overrides `InitializeFlags` applies on top of the
defaults (lsan.cpp lines 62-76) before any options string is parsed. -/
def initialOverrides (d : CommonFlags) : CommonFlags :=
  { d with
    malloc_context_size := 30
    intercept_tls_get_addr := true
    detect_leaks := true
    exitcode := 23 }

/-- The typed configuration `InitializeFlags` resolves: overridden
defaults, then the embedded default-options string, then the
platform-sourced `LSAN_OPTIONS` string (lsan.cpp lines 62-98). -/
def resolvedFlagsOf (d : CommonFlags) (s1 s2 : String) : CommonFlags :=
  (parseString s2).foldl setCommonFlag
    ((parseString s1).foldl setCommonFlag (initialOverrides d))

/-- Result of `InitializeFlags`: the resolved configuration together with
the (global) `StackTrace::snapshot_stack` value after the routine ran. -/
structure FlagsResult where
  resolved : CommonFlags
  snapshot_stack : Bool
  deriving DecidableEq, Repr

/-- The routine `InitializeFlags` (lsan.cpp lines 60-112).  `defaults`
stands for the state left by `SetCommonFlagsDefaults`/`f->SetDefaults`;
`snapshot0` for the value of `StackTrace::snapshot_stack` on entry;
`lsan_default_options` for the string returned by
`MaybeCallLsanDefaultOptions()`; `lsan_options` for the platform-sourced
`LSAN_OPTIONS` string.  On Emscripten the `LSAN_SYMBOLIZER_PATH` lookup
is skipped (no field modelled) and `snapshot_stack` is cleared when the
resolved `malloc_context_size` is at most 1 (lines 100-103). -/
def InitializeFlags (emscripten : Bool) (defaults : CommonFlags)
    (snapshot0 : Bool) (lsan_default_options lsan_options : String) :
    FlagsResult :=
  { resolved := resolvedFlagsOf defaults lsan_default_options lsan_options
    snapshot_stack :=
      if emscripten ∧
          (resolvedFlagsOf defaults lsan_default_options
            lsan_options).malloc_context_size ≤ 1
      then false else snapshot0 }

/-! The `__lsan_init` entry point.

The function `__lsan_init` (lsan.cpp lines 125-156) is modelled as a
function on an explicit process state.  Each external collaborator call
is recorded as an event, so "performs no bring-up step" is "emits no
events".  `CHECK` failures abort the process, modelled by the `aborted`
result. -/

/-- The bootstrap thread's registry entry as `__lsan_init` leaves it:
identifier, whether `ThreadStart` ran, and the OS thread id it was bound
to. -/
structure ThreadRecord where
  tid : Nat
  started : Bool
  osTid : Option Nat
  deriving DecidableEq, Repr

/-- Process-wide state touched by `__lsan_init`. -/
structure LsanState where
  lsan_inited : Bool
  lsan_init_is_running : Bool
  bootThread : Option ThreadRecord
  currentThread : Option Nat
  resolvedFlags : Option CommonFlags
  deriving DecidableEq, Repr

/-- The zero-initialized state at program load. -/
def initialState : LsanState :=
  { lsan_inited := false
    lsan_init_is_running := false
    bootThread := none
    currentThread := none
    resolvedFlags := none }

/-- One observable bring-up step (each is a call to an external
collaborator or to `InitializeFlags`). -/
inductive InitStep where
  | setToolName
  | cacheBinaryName
  | avoidCVE
  | initializeFlags
  | initCommonLsan
  | initializeAllocator
  | replaceSystemMalloc
  | initTlsSize
  | initializeInterceptors
  | initializeThreadRegistry
  | installDeadlySignalHandlers
  | threadCreate
  | threadStart
  | setCurrentThread
  | atexitDoLeakCheck
  | initializeCoverage
  deriving DecidableEq, Repr

/-- Environment a run of `__lsan_init` executes in: the platform flag,
the inputs of `InitializeFlags`, the value `ThreadCreate(0, 0, true)`
returns, and the OS thread id `GetTid()` returns. -/
structure InitEnv where
  emscripten : Bool
  defaults : CommonFlags
  snapshot0 : Bool
  lsan_default_options : String
  lsan_options : String
  threadCreateResult : Nat
  osTid : Nat
  deriving DecidableEq, Repr

/-- Outcome of one `__lsan_init` call: abnormal termination (a failed
`CHECK`) or a normal return, in both cases with the bring-up events
emitted before the outcome. -/
inductive InitResult where
  | aborted (events : List InitStep)
  | returned (s : LsanState) (events : List InitStep)
  deriving DecidableEq, Repr

/-- The resolved configuration a bring-up in environment `env` installs. -/
def resolvedOf (env : InitEnv) : CommonFlags :=
  (InitializeFlags env.emscripten env.defaults env.snapshot0
    env.lsan_default_options env.lsan_options).resolved

/-- Events of lines 130-144: everything up to and including the
`ThreadCreate` call (the last event before `CHECK_EQ(tid, 0)`).
`InstallDeadlySignalHandlers` is skipped on Emscripten. -/
def preEvents (env : InitEnv) : List InitStep :=
  [.setToolName, .cacheBinaryName, .avoidCVE, .initializeFlags,
   .initCommonLsan, .initializeAllocator, .replaceSystemMalloc,
   .initTlsSize, .initializeInterceptors, .initializeThreadRegistry]
  ++ (if env.emscripten then [] else [.installDeadlySignalHandlers])
  ++ [.threadCreate]

/-- Whether line 149 registers the exit-time leak check. -/
def registersAtexit (env : InitEnv) : Bool :=
  (resolvedOf env).detect_leaks && (resolvedOf env).leak_check_at_exit

/-- Events of a full successful bring-up. -/
def fullBringup (env : InitEnv) : List InitStep :=
  preEvents env
  ++ [.threadStart, .setCurrentThread]
  ++ (if registersAtexit env then [.atexitDoLeakCheck] else [])
  ++ [.initializeCoverage]

/-- The state a full successful bring-up leaves behind. -/
def completedState (env : InitEnv) : LsanState :=
  { lsan_inited := true
    lsan_init_is_running := false
    bootThread := some { tid := 0, started := true, osTid := some env.osTid }
    currentThread := some 0
    resolvedFlags := some (resolvedOf env) }

/-- The entry point `__lsan_init` (lsan.cpp lines 125-156).
`CHECK(!lsan_init_is_running)` aborts on re-entry; a set `lsan_inited`
returns immediately; otherwise the bring-up sequence runs,
`CHECK_EQ(tid, 0)` aborting when `ThreadCreate` returns a nonzero
identifier. -/
def lsanInit (env : InitEnv) (s : LsanState) : InitResult :=
  if s.lsan_init_is_running then .aborted []
  else if s.lsan_inited then .returned s []
  else if env.threadCreateResult ≠ 0 then .aborted (preEvents env)
  else .returned (completedState env) (fullBringup env)

/-- Run `n` successive calls of `__lsan_init` from program load,
collecting each call's events; `none` if some call aborted the
process. -/
def runInit (env : InitEnv) : Nat → Option (LsanState × List (List InitStep))
  | 0 => some (initialState, [])
  | n + 1 =>
      (runInit env n).bind fun p =>
        match lsanInit env p.1 with
        | .returned s' e => some (s', p.2 ++ [e])
        | .aborted _ => none

/-- Number of occurrences of one bring-up step in an event list (the
spec's "counter on an external-collaborator stub"). -/
def countStep (st : InitStep) : List InitStep → Nat
  | [] => 0
  | x :: xs => (if x = st then 1 else 0) + countStep st xs

/-! The stack-unwind dispatcher.

The method `BufferedStackTrace::UnwindImpl` (lsan.cpp lines 40-56)
decides which `Unwind` call to make (fast frame-pointer walk, or the
precise context-based walk) and with which arguments; the walk itself is
an external collaborator, so the dispatcher's result is modelled as the
`Unwind` call it issues, `none` when no call is made (an empty frame
sequence). -/

/-- The current thread's registry entry as seen by the dispatcher:
recorded stack bounds (`stack_begin`/`stack_end`). -/
structure UnwindThreadContext where
  stack_begin : Nat
  stack_end : Nat
  deriving DecidableEq, Repr

/-- Modelled from the spec: `StackTrace::WillUseFastUnwind` lives in
`sanitizer_common`; the spec's dispatcher contract speaks only of "the
caller prefers the fast method", so the fast method is used exactly when
the request hint asks for it. -/
def WillUseFastUnwind (request_fast : Bool) : Bool :=
  request_fast

/-- Modelled from the spec: `IsValidFrame` lives in `sanitizer_common`;
the spec says to "validate the frame pointer against the resolved bounds
before trusting frame-pointer-chasing", i.e. the frame is valid when it
lies strictly inside the recorded stack interval. -/
def IsValidFrame (frame stack_top stack_bottom : Nat) : Bool :=
  stack_bottom < frame && frame < stack_top

/-- The `Unwind` call the dispatcher issues: `fast` is
`Unwind(max_depth, pc, bp, nullptr, stack_top, stack_bottom, true)`,
`slow` is `Unwind(max_depth, pc, 0, context, 0, 0, false)`. -/
inductive UnwindCall (Ctx : Type) where
  | fast (max_depth pc bp stack_top stack_bottom : Nat)
  | slow (max_depth pc : Nat) (context : Ctx)
  deriving DecidableEq, Repr

/-- The dispatcher `BufferedStackTrace::UnwindImpl` (lsan.cpp lines
40-56).  `mips` stands for `SANITIZER_MIPS`; `tctx` for the result of
`CurrentThreadContext()`.  Stack bounds start at 0 and are filled in
only when the fast method will be used and the thread context resolves;
on MIPS the frame pointer is validated against those bounds and, when
invalid, no `Unwind` call is made at all. -/
def UnwindImpl {Ctx : Type} (mips : Bool) (tctx : Option UnwindThreadContext)
    (pc bp : Nat) (context : Ctx) (request_fast : Bool) (max_depth : Nat) :
    Option (UnwindCall Ctx) :=
  let bounds :=
    if WillUseFastUnwind request_fast then
      match tctx with
      | some t => (t.stack_end, t.stack_begin)
      | none => ((0 : Nat), (0 : Nat))
    else ((0 : Nat), (0 : Nat))
  if !mips || IsValidFrame bp bounds.1 bounds.2 then
    if WillUseFastUnwind request_fast then
      some (.fast max_depth pc bp bounds.1 bounds.2)
    else
      some (.slow max_depth pc context)
  else
    none

/-! Concrete sample values used by the witnesses. -/

/-- A sample untyped default valuation (the spec's `a=0, b=1`). -/
def dW : String → String :=
  fun k => if k = "a" then "0" else if k = "b" then "1" else ""

/-- A sample typed default valuation. -/
def sampleDefaults : CommonFlags :=
  { malloc_context_size := 30
    intercept_tls_get_addr := false
    detect_leaks := true
    exitcode := 1
    leak_check_at_exit := true
    verbosity := 0 }

/-- A sample environment: Emscripten platform, empty options strings,
`ThreadCreate` returning the expected identifier 0, OS thread id 42. -/
def sampleEnv : InitEnv :=
  { emscripten := true
    defaults := sampleDefaults
    snapshot0 := true
    lsan_default_options := ""
    lsan_options := ""
    threadCreateResult := 0
    osTid := 42 }

/-- A state in which initialization is in progress. -/
def runningState : LsanState :=
  { initialState with lsan_init_is_running := true }

/-! Helper lemmas about the untyped option merge. -/

theorem applyOpts_eq_lastVal (l : List (String × String)) (m : String → String)
    (k : String) : applyOpts m l k = lastVal l k (m k) := by
  induction l generalizing m with
  | nil => rfl
  | cons kv tl ih =>
      simp only [applyOpts, List.foldl_cons, lastVal] at *
      rw [ih]
      by_cases h : k = kv.fst
      · simp [setOption, lastVal, h]
      · simp [setOption, lastVal, h]

theorem lastVal_of_not_mentions (l : List (String × String)) (k : String)
    (dflt : String) (h : mentions l k = false) : lastVal l k dflt = dflt := by
  induction l generalizing dflt with
  | nil => rfl
  | cons kv tl ih =>
      simp only [mentions, List.any_cons, Bool.or_eq_false_iff] at h
      simp only [lastVal, List.foldl_cons]
      have hk : ¬ (k = kv.fst) := fun hco => of_decide_eq_false h.1 hco.symm
      rw [if_neg hk]
      exact ih dflt h.2

theorem lastVal_indep (l : List (String × String)) (k : String)
    (h : mentions l k = true) (d1 d2 : String) :
    lastVal l k d1 = lastVal l k d2 := by
  induction l generalizing d1 d2 with
  | nil => simp [mentions] at h
  | cons kv tl ih =>
      by_cases hk : k = kv.fst
      · simp only [lastVal, List.foldl_cons, if_pos hk]
      · simp only [mentions, List.any_cons, Bool.or_eq_true] at h
        rcases h with h | h
        · exact absurd (of_decide_eq_true h).symm hk
        · simp only [lastVal, List.foldl_cons, if_neg hk]
          exact ih h d1 d2

/-! Helper lemmas about the typed flag fold. -/

theorem setCommonFlag_mcs (f : CommonFlags) (kv : String × String)
    (h : kv.fst ≠ "malloc_context_size") :
    (setCommonFlag f kv).malloc_context_size = f.malloc_context_size := by
  unfold setCommonFlag
  rw [if_neg h]
  repeat' split
  all_goals rfl

theorem setCommonFlag_tls (f : CommonFlags) (kv : String × String)
    (h : kv.fst ≠ "intercept_tls_get_addr") :
    (setCommonFlag f kv).intercept_tls_get_addr = f.intercept_tls_get_addr := by
  unfold setCommonFlag
  repeat' split
  all_goals rfl

theorem setCommonFlag_detect (f : CommonFlags) (kv : String × String)
    (h : kv.fst ≠ "detect_leaks") :
    (setCommonFlag f kv).detect_leaks = f.detect_leaks := by
  unfold setCommonFlag
  repeat' split
  all_goals rfl

theorem setCommonFlag_exit (f : CommonFlags) (kv : String × String)
    (h : kv.fst ≠ "exitcode") :
    (setCommonFlag f kv).exitcode = f.exitcode := by
  unfold setCommonFlag
  repeat' split
  all_goals rfl

theorem foldl_setCommonFlag_preserves {α : Type} (g : CommonFlags → α)
    (key : String)
    (hpres : ∀ f kv, kv.fst ≠ key → g (setCommonFlag f kv) = g f)
    (l : List (String × String)) (f : CommonFlags)
    (h : ∀ kv ∈ l, kv.fst ≠ key) :
    g (l.foldl setCommonFlag f) = g f := by
  induction l generalizing f with
  | nil => rfl
  | cons kv tl ih =>
      rw [List.foldl_cons, ih _ (fun x hx => h x (List.mem_cons_of_mem _ hx)),
        hpres f kv (h kv (List.mem_cons_self _ _))]

/-! Helper lemmas about `__lsan_init` runs. -/

theorem lsanInit_initial (env : InitEnv) (h : env.threadCreateResult = 0) :
    lsanInit env initialState = .returned (completedState env) (fullBringup env) := by
  simp [lsanInit, initialState, h]

theorem lsanInit_completed (env : InitEnv) :
    lsanInit env (completedState env) = .returned (completedState env) [] := rfl

theorem runInit_eq (env : InitEnv) (h : env.threadCreateResult = 0)
    (n : Nat) (hn : 1 ≤ n) :
    runInit env n
      = some (completedState env,
          fullBringup env :: List.replicate (n - 1) ([] : List InitStep)) := by
  induction n with
  | zero => exact absurd hn (by omega)
  | succ m ih =>
      cases Nat.eq_zero_or_pos m with
      | inl h0 =>
          subst h0
          simp [runInit, lsanInit_initial env h]
      | inr hm =>
          have h3 : List.replicate (m - 1) ([] : List InitStep) ++ [[]]
              = List.replicate m [] := by
            rw [← List.replicate_succ']
            congr 1
            omega
          simp [runInit, ih hm, lsanInit_completed env, h3]

theorem countStep_append (st : InitStep) (l1 l2 : List InitStep) :
    countStep st (l1 ++ l2) = countStep st l1 + countStep st l2 := by
  induction l1 with
  | nil => simp [countStep]
  | cons x xs ih => simp [countStep, ih, Nat.add_assoc]

theorem flatten_replicate_nil (k : Nat) :
    (List.replicate k ([] : List InitStep)).flatten = [] := by
  induction k with
  | zero => rfl
  | succ m ih => simp [List.replicate_succ, ih]

theorem countStep_flatten_rep (st : InitStep) (a : List InitStep) (k : Nat) :
    countStep st ((a :: List.replicate k ([] : List InitStep)).flatten)
      = countStep st a := by
  have : (a :: List.replicate k ([] : List InitStep)).flatten
      = a ++ (List.replicate k ([] : List InitStep)).flatten := by
    simp
  rw [this, flatten_replicate_nil, List.append_nil]

theorem count_atexit_fullBringup (env : InitEnv) :
    countStep InitStep.atexitDoLeakCheck (fullBringup env)
      = if registersAtexit env then 1 else 0 := by
  cases hb : registersAtexit env <;> cases hm : env.emscripten <;>
    simp only [fullBringup, preEvents, hb, hm] <;> rfl

/-! Helper lemmas about the unwind dispatcher. -/

theorem isValidFrame_zero (bp : Nat) : IsValidFrame bp 0 0 = false := by
  simp [IsValidFrame]

/-! The claims. -/

/-- C1: the initialize entry point `__lsan_init` is idempotent: for every
`n ≥ 1` (given that `ThreadCreate` returns the expected identifier 0, so
that the first call completes), `n` calls perform the full bring-up
sequence exactly once — the first call emits exactly the bring-up events
and every later call emits no event and leaves the state unchanged — and
after the first call the state is Completed (`lsan_inited` is true). -/
theorem lsan_init_idempotent (env : InitEnv) (h : env.threadCreateResult = 0)
    (n : Nat) (hn : 1 ≤ n) :
    runInit env n
      = some (completedState env,
          fullBringup env :: List.replicate (n - 1) ([] : List InitStep))
    ∧ (completedState env).lsan_inited = true
    ∧ lsanInit env (completedState env) = .returned (completedState env) [] :=
  ⟨runInit_eq env h n hn, rfl, lsanInit_completed env⟩

/-- Witness for C1 at a concrete environment and `n = 3`: the first call
does the bring-up, the second and third are event-free no-ops. -/
theorem lsan_init_idempotent_witness :
    runInit sampleEnv 3
      = some (completedState sampleEnv,
          fullBringup sampleEnv :: List.replicate 2 ([] : List InitStep))
    ∧ (completedState sampleEnv).lsan_inited = true
    ∧ lsanInit sampleEnv (completedState sampleEnv)
        = .returned (completedState sampleEnv) [] :=
  lsan_init_idempotent sampleEnv rfl 3 (by decide)

/-- C2: if `__lsan_init` is entered while `lsan_init_is_running` is true,
the `CHECK(!lsan_init_is_running)` fails and the process terminates
abnormally before any bring-up step is performed. -/
theorem lsan_init_reentrant_aborts (env : InitEnv) (s : LsanState)
    (h : s.lsan_init_is_running = true) :
    lsanInit env s = .aborted [] := by
  simp [lsanInit, h]

/-- Witness for C2 at a concrete environment and an in-progress state. -/
theorem lsan_init_reentrant_aborts_witness :
    lsanInit sampleEnv runningState = .aborted [] :=
  lsan_init_reentrant_aborts sampleEnv runningState rfl

/-- C3: configuration resolution is a last-writer-wins merge of defaults,
the embedded default-options string and the platform-sourced options
string: for every flag key, a key the later source mentions gets the
later source's (latest) value independently of anything earlier, a key
the later source omits keeps the earlier stage's value, and a key no
source mentions keeps its default. -/
theorem config_last_writer_wins (defaults : String → String) (s1 s2 k : String) :
    (mentions (parseString s2) k = true →
      resolveConfig defaults s1 s2 k = lastVal (parseString s2) k "")
    ∧ (mentions (parseString s2) k = false →
      resolveConfig defaults s1 s2 k = applyOpts defaults (parseString s1) k)
    ∧ (mentions (parseString s2) k = false → mentions (parseString s1) k = true →
      resolveConfig defaults s1 s2 k = lastVal (parseString s1) k "")
    ∧ (mentions (parseString s2) k = false → mentions (parseString s1) k = false →
      resolveConfig defaults s1 s2 k = defaults k) := by
  refine ⟨?_, ?_, ?_, ?_⟩
  · intro h2
    rw [resolveConfig, applyOpts_eq_lastVal]
    exact lastVal_indep _ _ h2 _ _
  · intro h2
    rw [resolveConfig, applyOpts_eq_lastVal, lastVal_of_not_mentions _ _ _ h2]
  · intro h2 h1
    rw [resolveConfig, applyOpts_eq_lastVal, lastVal_of_not_mentions _ _ _ h2,
      applyOpts_eq_lastVal]
    exact lastVal_indep _ _ h1 _ _
  · intro h2 h1
    rw [resolveConfig, applyOpts_eq_lastVal, lastVal_of_not_mentions _ _ _ h2,
      applyOpts_eq_lastVal, lastVal_of_not_mentions _ _ _ h1]

/-- Witness for C3 on the spec's example: defaults `a=0, b=1`, later
source `"a=1:b=0"` mentioning both keys, so the result is `a=1` (the
later source's value), while an unmentioned key `c` keeps its default. -/
theorem config_last_writer_wins_witness :
    resolveConfig dW "" "a=1:b=0" "a" = "1"
    ∧ resolveConfig dW "" "a=1:b=0" "c" = dW "c" :=
  ⟨((config_last_writer_wins dW "" "a=1:b=0" "a").1 (by decide)).trans (by decide),
   (config_last_writer_wins dW "" "a=1:b=0" "c").2.2.2 (by decide) (by decide)⟩

/-- C4 counterexample: the tool-mandated overrides are applied before the
options strings are parsed, so a user-supplied options string CAN weaken
all four of them: with `LSAN_OPTIONS =
"detect_leaks=0:exitcode=0:malloc_context_size=5:intercept_tls_get_addr=0"`
the resolved configuration has depth 5, TLS interception off, leak
detection off and exit code 0 — not the claimed fixed 30/on/on/23. -/
theorem fixed_overrides_counterexample :
    (InitializeFlags true sampleDefaults true ""
      "detect_leaks=0:exitcode=0:malloc_context_size=5:intercept_tls_get_addr=0").resolved
      = { malloc_context_size := 5
          intercept_tls_get_addr := false
          detect_leaks := false
          exitcode := 0
          leak_check_at_exit := true
          verbosity := 0 } := by
  rfl

/-- C4 (amended): `InitializeFlags` applies the tool-mandated overrides
(allocation-context depth 30, TLS interception on, leak detection on,
exit code 23) on top of the defaults before parsing the options strings;
the resolved configuration therefore holds those values for every pair
of options strings that does not mention those keys, but a later
options-string assignment to one of them takes precedence. -/
theorem fixed_overrides_before_parsing (emscripten : Bool) (d : CommonFlags)
    (snap : Bool) (s1 s2 : String)
    (h : ∀ kv ∈ parseString s1 ++ parseString s2,
      kv.fst ≠ "malloc_context_size" ∧ kv.fst ≠ "intercept_tls_get_addr" ∧
      kv.fst ≠ "detect_leaks" ∧ kv.fst ≠ "exitcode") :
    (InitializeFlags emscripten d snap s1 s2).resolved.malloc_context_size = 30
    ∧ (InitializeFlags emscripten d snap s1 s2).resolved.intercept_tls_get_addr = true
    ∧ (InitializeFlags emscripten d snap s1 s2).resolved.detect_leaks = true
    ∧ (InitializeFlags emscripten d snap s1 s2).resolved.exitcode = 23 := by
  have h1 : ∀ kv ∈ parseString s1, kv.fst ≠ "malloc_context_size" ∧
      kv.fst ≠ "intercept_tls_get_addr" ∧ kv.fst ≠ "detect_leaks" ∧
      kv.fst ≠ "exitcode" :=
    fun kv hkv => h kv (List.mem_append_left _ hkv)
  have h2 : ∀ kv ∈ parseString s2, kv.fst ≠ "malloc_context_size" ∧
      kv.fst ≠ "intercept_tls_get_addr" ∧ kv.fst ≠ "detect_leaks" ∧
      kv.fst ≠ "exitcode" :=
    fun kv hkv => h kv (List.mem_append_right _ hkv)
  refine ⟨?_, ?_, ?_, ?_⟩
  · show (resolvedFlagsOf d s1 s2).malloc_context_size = 30
    rw [resolvedFlagsOf,
      foldl_setCommonFlag_preserves _ _ setCommonFlag_mcs _ _
        (fun kv hkv => (h2 kv hkv).1),
      foldl_setCommonFlag_preserves _ _ setCommonFlag_mcs _ _
        (fun kv hkv => (h1 kv hkv).1)]
    rfl
  · show (resolvedFlagsOf d s1 s2).intercept_tls_get_addr = true
    rw [resolvedFlagsOf,
      foldl_setCommonFlag_preserves _ _ setCommonFlag_tls _ _
        (fun kv hkv => (h2 kv hkv).2.1),
      foldl_setCommonFlag_preserves _ _ setCommonFlag_tls _ _
        (fun kv hkv => (h1 kv hkv).2.1)]
    rfl
  · show (resolvedFlagsOf d s1 s2).detect_leaks = true
    rw [resolvedFlagsOf,
      foldl_setCommonFlag_preserves _ _ setCommonFlag_detect _ _
        (fun kv hkv => (h2 kv hkv).2.2.1),
      foldl_setCommonFlag_preserves _ _ setCommonFlag_detect _ _
        (fun kv hkv => (h1 kv hkv).2.2.1)]
    rfl
  · show (resolvedFlagsOf d s1 s2).exitcode = 23
    rw [resolvedFlagsOf,
      foldl_setCommonFlag_preserves _ _ setCommonFlag_exit _ _
        (fun kv hkv => (h2 kv hkv).2.2.2),
      foldl_setCommonFlag_preserves _ _ setCommonFlag_exit _ _
        (fun kv hkv => (h1 kv hkv).2.2.2)]
    rfl

/-- Witness for the amended C4 at concrete inputs whose options strings
touch only other keys. -/
theorem fixed_overrides_before_parsing_witness :
    (InitializeFlags true sampleDefaults true ""
      "verbosity=2:leak_check_at_exit=0").resolved.malloc_context_size = 30
    ∧ (InitializeFlags true sampleDefaults true ""
      "verbosity=2:leak_check_at_exit=0").resolved.intercept_tls_get_addr = true
    ∧ (InitializeFlags true sampleDefaults true ""
      "verbosity=2:leak_check_at_exit=0").resolved.detect_leaks = true
    ∧ (InitializeFlags true sampleDefaults true ""
      "verbosity=2:leak_check_at_exit=0").resolved.exitcode = 23 :=
  fixed_overrides_before_parsing true sampleDefaults true ""
    "verbosity=2:leak_check_at_exit=0" (by decide)

/-- C5: over any number `n ≥ 1` of calls of `__lsan_init` (with the first
call completing), the exit-time leak-check hook is registered exactly
once when the resolved configuration has both `detect_leaks` and
`leak_check_at_exit` set, and never otherwise — in particular it is
registered at most once per process. -/
theorem atexit_registration_iff (env : InitEnv) (h : env.threadCreateResult = 0)
    (n : Nat) (hn : 1 ≤ n) (s : LsanState) (evss : List (List InitStep))
    (hrun : runInit env n = some (s, evss)) :
    countStep InitStep.atexitDoLeakCheck evss.flatten
      = if (resolvedOf env).detect_leaks && (resolvedOf env).leak_check_at_exit
        then 1 else 0 := by
  have h2 := runInit_eq env h n hn
  rw [hrun] at h2
  simp only [Option.some.injEq, Prod.mk.injEq] at h2
  obtain ⟨hs, hev⟩ := h2
  subst hev
  rw [countStep_flatten_rep, count_atexit_fullBringup]
  rfl

/-- Witness for C5 at a concrete environment (both toggles resolve to
true) and `n = 2`: the hook is registered exactly once. -/
theorem atexit_registration_iff_witness :
    countStep InitStep.atexitDoLeakCheck
      ([fullBringup sampleEnv, []] : List (List InitStep)).flatten
      = if (resolvedOf sampleEnv).detect_leaks
            && (resolvedOf sampleEnv).leak_check_at_exit
        then 1 else 0 :=
  atexit_registration_iff sampleEnv rfl 2 (by decide)
    (completedState sampleEnv) [fullBringup sampleEnv, []] rfl

/-- C6: the first `__lsan_init` call either sees `ThreadCreate` return
the expected identifier 0 — and then returns with the bootstrap thread
record created with identifier 0, marked started, bound to the calling
OS thread, and installed as the current registry entry — or sees any
other identifier and aborts (`CHECK_EQ(tid, 0)` fails). -/
theorem bootstrap_thread_record (env : InitEnv) :
    lsanInit env initialState
      = (if env.threadCreateResult = 0
          then .returned (completedState env) (fullBringup env)
          else .aborted (preEvents env))
    ∧ (completedState env).bootThread
        = some { tid := 0, started := true, osTid := some env.osTid }
    ∧ (completedState env).currentThread = some 0 := by
  refine ⟨?_, rfl, rfl⟩
  by_cases h : env.threadCreateResult = 0 <;> simp [lsanInit, initialState, h]

/-- C7: on MIPS (the platform that validates frame pointers), a
fast-unwind request whose frame pointer is not inside the current
thread's recorded stack bounds issues no `Unwind` call at all: the
result is the empty frame sequence. -/
theorem mips_invalid_frame_empty {Ctx : Type} (t : UnwindThreadContext)
    (pc bp : Nat) (context : Ctx) (max_depth : Nat)
    (h : IsValidFrame bp t.stack_end t.stack_begin = false) :
    UnwindImpl true (some t) pc bp context true max_depth = none := by
  simp [UnwindImpl, WillUseFastUnwind, h]

/-- Witness for C7: recorded bounds `[100, 200]`, frame pointer 5 lies
outside them, and the dispatcher produces no frames. -/
theorem mips_invalid_frame_empty_witness :
    IsValidFrame 5 200 100 = false
    ∧ UnwindImpl true (some ⟨100, 200⟩) 10 5 (0 : Nat) true 20 = none :=
  ⟨rfl, mips_invalid_frame_empty ⟨100, 200⟩ 10 5 (0 : Nat) 20 rfl⟩

/-- C8 counterexample: with the fast-unwind hint set and an unresolvable
current-thread registry entry (on a non-validating platform), the
dispatcher does NOT fall back to context-based unwinding: it issues the
fast frame-pointer `Unwind` call with zero stack bounds and a null
context, not the context-based call the claim describes. -/
theorem fast_unwind_unresolved_counterexample :
    UnwindImpl false none 10 20 (7 : Nat) true 5
      = some (.fast 5 10 20 0 0)
    ∧ UnwindImpl false none 10 20 (7 : Nat) true 5
      ≠ some (.slow 5 10 (7 : Nat)) :=
  ⟨rfl, by decide⟩

/-- C8 (amended): when the fast method is requested and the current
thread's registry entry is unresolvable, the dispatcher keeps the fast
path with zero stack bounds: on a non-validating platform it issues the
fast frame-pointer `Unwind` call with bounds 0/0 (ignoring the supplied
context), and on MIPS the zero bounds never validate, so it produces an
empty frame sequence. -/
theorem fast_unwind_unresolved_zero_bounds {Ctx : Type} (mips : Bool)
    (pc bp : Nat) (context : Ctx) (max_depth : Nat) :
    UnwindImpl mips none pc bp context true max_depth
      = if mips then none else some (.fast max_depth pc bp 0 0) := by
  cases mips <;> simp [UnwindImpl, WillUseFastUnwind, isValidFrame_zero]

/-- C9 counterexample: on MIPS a request without fast unwinding issues no
`Unwind` call at all (the zero stack bounds never validate the frame
pointer), so the dispatcher does not perform the context-based unwinding
the claim describes. -/
theorem slow_unwind_mips_counterexample :
    UnwindImpl true none 10 20 (7 : Nat) false 5 = none
    ∧ UnwindImpl true none 10 20 (7 : Nat) false 5
      ≠ some (.slow 5 10 (7 : Nat)) :=
  ⟨rfl, by decide⟩

/-- C9 (amended): when fast unwinding is not selected, the dispatcher's
result is derived solely from the supplied execution context and program
counter — two calls differing only in the frame pointer and the thread's
recorded stack bounds produce the same result — and that result is the
context-based `Unwind` call on a non-validating platform, and the empty
frame sequence on MIPS (where the zero bounds never validate). -/
theorem slow_unwind_context_only {Ctx : Type} (mips : Bool)
    (t t' : Option UnwindThreadContext) (pc bp bp' : Nat) (context : Ctx)
    (max_depth : Nat) :
    UnwindImpl mips t pc bp context false max_depth
      = UnwindImpl mips t' pc bp' context false max_depth
    ∧ UnwindImpl mips t pc bp context false max_depth
      = (if mips then none else some (.slow max_depth pc context)) := by
  cases mips <;>
    simp [UnwindImpl, WillUseFastUnwind, isValidFrame_zero]

/-- C10: on Emscripten, flag resolution additionally clears
`StackTrace::snapshot_stack` exactly when the resolved
`malloc_context_size` is at most 1, and leaves it unchanged for any
larger resolved depth. -/
theorem emscripten_snapshot_stack (d : CommonFlags) (snap : Bool)
    (s1 s2 : String) :
    (InitializeFlags true d snap s1 s2).snapshot_stack
      = if (InitializeFlags true d snap s1 s2).resolved.malloc_context_size ≤ 1
        then false else snap := by
  simp [InitializeFlags]

end Lsan
